import Mathlib

/-!
Shallow embedding of `src/config.py`, a static configuration module for a
Meta Ads API client.  Python dict literals are embedded as ordered
association lists from string keys to `PyValue`s; Python list literals of
strings become `List String`; plain string constants become `String`.
The theorems below settle the spec's claims about these constants.
-/

/-- A Python literal value occurring in the configuration module:
an integer, a string, or a list of values. -/
inductive PyValue where
  | int (n : Int)
  | str (s : String)
  | list (xs : List PyValue)

/-- A Python dict literal: an ordered association list from string keys
to values. -/
abbrev PyDict := List (String × PyValue)

/-- Lookup of a key in a dict, as Python's `d[k]` (first binding wins;
dict literals in the source bind each key once). -/
def PyDict.lookup (d : PyDict) (k : String) : Option PyValue :=
  (List.find? (fun kv => kv.fst == k) d).map Prod.snd

/-- The ordered key list of a dict literal. -/
def PyDict.keys (d : PyDict) : List String :=
  List.map Prod.fst d

/-- `FB_API_VERSION = "v20.0"` (config.py line 6). -/
def FB_API_VERSION : String := "v20.0"

/-- `FB_BASE_URL = f"https://graph.facebook.com/{FB_API_VERSION}"`
(config.py line 7): the f-string concatenates the fixed text with the
version string. -/
def FB_BASE_URL : String := "https://graph.facebook.com/" ++ FB_API_VERSION

/-- `DEFAULT_API_FIELDS` (config.py lines 10-25). -/
def DEFAULT_API_FIELDS : List String := [
  "spend",
  "cpc",
  "cpm",
  "objective",
  "adset_name",
  "adset_id",
  "clicks",
  "campaign_name",
  "campaign_id",
  "conversions",
  "frequency",
  "conversion_values",
  "ad_name",
  "ad_id"
]

/-- `API_RETRY_CONFIG` (config.py lines 28-32). -/
def API_RETRY_CONFIG : PyDict := [
  ("total", .int 3),
  ("backoff_factor", .int 1),
  ("status_forcelist", .list [.int 500, .int 502, .int 503, .int 504])
]

/-- `LOGGING_CONFIG` (config.py lines 35-43). -/
def LOGGING_CONFIG : PyDict := [
  ("level", .str "INFO"),
  ("format", .str "%(asctime)s - %(levelname)s - %(message)s"),
  ("handlers", .list [.str "FileHandler", .str "StreamHandler"]),
  ("log_file", .str "meta_ads.log")
]

/-- `BIGQUERY_CONFIG` (config.py lines 46-49). -/
def BIGQUERY_CONFIG : PyDict := [
  ("if_exists", .str "replace"),
  ("chunksize", .int 10000)
]

/-- The standard level names of Python's `logging` module, against which
the claim "the level is a standard logging level string" is read. -/
def STANDARD_LOGGING_LEVEL_NAMES : List String :=
  ["CRITICAL", "ERROR", "WARNING", "INFO", "DEBUG", "NOTSET"]

/-- `strContains s pat` holds when `pat` occurs as a contiguous substring
of `s`. -/
def strContains (s pat : String) : Bool :=
  (List.range (s.data.length + 1)).any (fun i => pat.data.isPrefixOf (s.data.drop i))

/-- Does a value hold an integer? -/
def PyValue.isIntVal : PyValue → Bool
  | .int _ => true
  | _ => false

/-- Does a value hold a non-empty string? -/
def PyValue.isNonEmptyStr : PyValue → Bool
  | .str s => !(s == "")
  | _ => false

/-- Number of (possibly overlapping) occurrences of `pat` in `s`. -/
def countOccs (pat s : List Char) : Nat :=
  ((List.range (s.length + 1)).filter (fun i => pat.isPrefixOf (s.drop i))).length

/-- Index of the first occurrence of `pat` in `s`, when there is one. -/
def firstOcc (pat s : List Char) : Option Nat :=
  ((List.range (s.length + 1)).filter (fun i => pat.isPrefixOf (s.drop i))).head?

/-- Every occurrence of the percent character in `s` starts one of the
given patterns; used to state that a format string has no placeholders
beyond the listed ones. -/
def allPercentsStartPattern (pats : List (List Char)) (s : List Char) : Bool :=
  (List.range s.length).all (fun i =>
    match s.drop i with
    | '%' :: _ => pats.any (fun p => p.isPrefixOf (s.drop i))
    | _ => true)

/-- Claim C1: the endpoint constants are two strings, and the derived base
URL embeds the declared version string: `FB_API_VERSION` occurs as a
substring of `FB_BASE_URL`. -/
theorem fb_base_url_embeds_version :
    strContains FB_BASE_URL FB_API_VERSION = true := by decide

/-- Claim C2: `DEFAULT_API_FIELDS` has no duplicate entries and every
entry is a non-empty string. -/
theorem default_api_fields_nodup_and_nonempty :
    DEFAULT_API_FIELDS.Nodup ∧
    DEFAULT_API_FIELDS.all (fun f => !(f == "")) = true := by decide

/-- Claim C3: in `API_RETRY_CONFIG`, the value at key `total` is a
positive integer, and every element of the collection at key
`status_forcelist` is an integer between 500 and 599 inclusive. -/
theorem api_retry_total_pos_and_forcelist_server_errors :
    (∃ n : Int, PyDict.lookup API_RETRY_CONFIG "total" = some (.int n) ∧ 0 < n) ∧
    (∃ xs, PyDict.lookup API_RETRY_CONFIG "status_forcelist" = some (.list xs) ∧
      xs.all (fun x => match x with
        | .int c => decide (500 ≤ c ∧ c ≤ 599)
        | _ => false) = true) :=
  ⟨⟨3, rfl, by decide⟩,
   ⟨[.int 500, .int 502, .int 503, .int 504], rfl, by decide⟩⟩

/-- Claim C4: `BIGQUERY_CONFIG` maps `if_exists` to the enumerated mode
string `replace` and `chunksize` to a positive integer. -/
theorem bigquery_if_exists_replace_and_chunksize_pos :
    PyDict.lookup BIGQUERY_CONFIG "if_exists" = some (.str "replace") ∧
    (∃ n : Int, PyDict.lookup BIGQUERY_CONFIG "chunksize" = some (.int n) ∧ 0 < n) :=
  ⟨rfl, ⟨10000, rfl, by decide⟩⟩

/-- Claim C5: `API_RETRY_CONFIG` has exactly the three keys `total`,
`backoff_factor` and `status_forcelist`; the first two hold integers, and
the third holds a duplicate-free collection whose elements are all
integers. -/
theorem api_retry_config_shape :
    PyDict.keys API_RETRY_CONFIG = ["total", "backoff_factor", "status_forcelist"] ∧
    (∃ n : Int, PyDict.lookup API_RETRY_CONFIG "total" = some (.int n)) ∧
    (∃ b : Int, PyDict.lookup API_RETRY_CONFIG "backoff_factor" = some (.int b)) ∧
    (∃ cs : List Int, PyDict.lookup API_RETRY_CONFIG "status_forcelist"
        = some (.list (cs.map PyValue.int)) ∧ cs.Nodup) :=
  ⟨rfl, ⟨3, rfl⟩, ⟨1, rfl⟩, ⟨[500, 502, 503, 504], rfl, by decide⟩⟩

/-- Claim C6: `LOGGING_CONFIG` provides a standard logging level name, a
format string containing at least one percent-style placeholder of the
form `%(name)s`, a non-empty list of handler-kind names that are all
non-empty strings, and a non-empty file path string. -/
theorem logging_config_shape :
    (∃ l, PyDict.lookup LOGGING_CONFIG "level" = some (.str l) ∧
      l ∈ STANDARD_LOGGING_LEVEL_NAMES) ∧
    (∃ fmt, PyDict.lookup LOGGING_CONFIG "format" = some (.str fmt) ∧
      ∃ name, name ≠ "" ∧ strContains fmt ("%(" ++ name ++ ")s") = true) ∧
    (∃ hs, PyDict.lookup LOGGING_CONFIG "handlers" = some (.list hs) ∧
      hs ≠ [] ∧ hs.all PyValue.isNonEmptyStr = true) ∧
    (∃ f, PyDict.lookup LOGGING_CONFIG "log_file" = some (.str f) ∧ f ≠ "") :=
  ⟨⟨"INFO", rfl, by decide⟩,
   ⟨"%(asctime)s - %(levelname)s - %(message)s", rfl,
     ⟨"asctime", by decide, by decide⟩⟩,
   ⟨[.str "FileHandler", .str "StreamHandler"], rfl, List.cons_ne_nil _ _, by decide⟩,
   ⟨"meta_ads.log", rfl, by decide⟩⟩

/-- Claim C7: every constant group evaluates to one fixed literal value
(the embedding is pure, so any two reads of a constant agree); in
particular the derived `FB_BASE_URL` is the fixed string below. -/
theorem config_constants_fixed :
    FB_API_VERSION = "v20.0" ∧
    FB_BASE_URL = "https://graph.facebook.com/v20.0" ∧
    DEFAULT_API_FIELDS = ["spend", "cpc", "cpm", "objective", "adset_name",
      "adset_id", "clicks", "campaign_name", "campaign_id", "conversions",
      "frequency", "conversion_values", "ad_name", "ad_id"] ∧
    PyDict.lookup API_RETRY_CONFIG "total" = PyDict.lookup API_RETRY_CONFIG "total" ∧
    PyDict.lookup LOGGING_CONFIG "level" = PyDict.lookup LOGGING_CONFIG "level" ∧
    PyDict.lookup BIGQUERY_CONFIG "chunksize" = PyDict.lookup BIGQUERY_CONFIG "chunksize" :=
  ⟨rfl, rfl, rfl, rfl, rfl, rfl⟩

/-- Claim C8: `FB_BASE_URL` is the fixed text `https://graph.facebook.com/`
followed by `FB_API_VERSION`; with the declared version it equals exactly
`https://graph.facebook.com/v20.0`, and its last character is not a
slash. -/
theorem fb_base_url_value :
    FB_BASE_URL = "https://graph.facebook.com/" ++ FB_API_VERSION ∧
    FB_API_VERSION = "v20.0" ∧
    FB_BASE_URL = "https://graph.facebook.com/v20.0" ∧
    FB_BASE_URL.data.getLast? ≠ some '/' :=
  ⟨rfl, rfl, rfl, by decide⟩

/-- Claim C9: for each of the entity stems `campaign`, `adset` and `ad`,
both the `_name` and the `_id` field belong to `DEFAULT_API_FIELDS`. -/
theorem name_and_id_fields_paired :
    (["campaign", "adset", "ad"].all (fun p =>
      DEFAULT_API_FIELDS.contains (p ++ "_name") &&
      DEFAULT_API_FIELDS.contains (p ++ "_id"))) = true := by decide

/-- Claim C10: the logging format string contains each of the placeholders
`%(asctime)s`, `%(levelname)s` and `%(message)s` exactly once, their first
occurrences are in that order, and every percent character in the string
starts one of these three placeholders (so there is no other
placeholder). -/
theorem logging_format_placeholders :
    ∃ fmt, PyDict.lookup LOGGING_CONFIG "format" = some (.str fmt) ∧
      countOccs "%(asctime)s".data fmt.data = 1 ∧
      countOccs "%(levelname)s".data fmt.data = 1 ∧
      countOccs "%(message)s".data fmt.data = 1 ∧
      (∃ i j k, firstOcc "%(asctime)s".data fmt.data = some i ∧
        firstOcc "%(levelname)s".data fmt.data = some j ∧
        firstOcc "%(message)s".data fmt.data = some k ∧ i < j ∧ j < k) ∧
      allPercentsStartPattern
        ["%(asctime)s".data, "%(levelname)s".data, "%(message)s".data]
        fmt.data = true :=
  ⟨"%(asctime)s - %(levelname)s - %(message)s", rfl,
    by decide, by decide, by decide,
    ⟨0, 14, 30, by decide, by decide, by decide, by decide, by decide⟩,
    by decide⟩
